import Mathlib

/-!
# Holidays SDK: date formatting and request construction

A shallow embedding of `src/index.js`: the helper `toDateFormat` and the five
asynchronous methods of the class `HolidaysAPI`.

* JavaScript strings are Lean strings.  Every character that `toDateFormat`
  itself produces is ASCII; strings passed in by the caller are never inspected.
* A `Date` object is represented by what its three local-time getters return.
* The transport returned by `createInstance` is external: it is a parameter of
  the model, a function from a request and a state of the outside world to a
  settled promise and a new state.  Every call of `get` is appended to a log.
-/

namespace HolidaysSDK

/-! ## Built-ins used by `toDateFormat` -/

/-- Decimal digits of a natural number, most significant first, with explicit fuel. -/
def digitsAux : Nat → Nat → List Char
  | 0, _ => []
  | fuel + 1, n =>
    if n < 10 then [Nat.digitChar n]
    else digitsAux fuel (n / 10) ++ [Nat.digitChar (n % 10)]

/-- Decimal digits of a natural number (`"0"` for zero); the fuel `n + 1` always suffices. -/
def decimalDigits (n : Nat) : List Char := digitsAux (n + 1) n

/-- `Number.prototype.toString()` (radix 10) on an integral Number: a minus sign for a
negative value, then the decimal digits of the magnitude.  The values reaching it in
`toDateFormat` are calendar fields of a `Date`, far below `1e21`, where JavaScript
switches to exponent notation. -/
def numberToString (x : Int) : String :=
  if x < 0 then "-" ++ String.mk (decimalDigits x.natAbs)
  else String.mk (decimalDigits x.natAbs)

/-- `String.prototype.padStart(maxLength, fillString)`: when the string is shorter than
`maxLength` and the filler is non-empty, the filler is repeated, truncated to the missing
length and put in front; otherwise the string is returned as it is. -/
def padStart (s : String) (maxLength : Nat) (fillString : String) : String :=
  let stringLength := s.length
  if maxLength ≤ stringLength then s
  else if fillString.length = 0 then s
  else
    let fillLen := maxLength - stringLength
    let truncatedStringFiller :=
      ((List.replicate fillLen fillString.data).flatten).take fillLen
    String.mk truncatedStringFiller ++ s

/-- An element of the array literal built by `toDateFormat`: a Number or a String. -/
inductive Elem where
  | number (x : Int)
  | string (s : String)

/-- The abstract operation `ToString` on an array element. -/
def Elem.toStr : Elem → String
  | .number x => numberToString x
  | .string s => s

/-- `Array.prototype.join(separator)`: the elements converted to strings, with the
separator before every element but the first. -/
def join : List Elem → String → String
  | [], _ => ""
  | e :: es, sep => es.foldl (fun r next => r ++ sep ++ next.toStr) e.toStr

/-! ## Dates -/

/-- A `Date` object, as seen through the three getters the code calls: the local calendar
year (negative for a year before year 0), the 0-indexed month and the day of the month.
A `Date` without a time value, whose getters return `NaN`, has no calendar fields and is
not represented. -/
structure JSDate where
  getFullYear : Int
  getMonth : Nat
  getDate : Nat

/-- The argument of `toDateFormat`: `Date|string`. -/
inductive DateInput where
  | string (s : String)
  | date (d : JSDate)

/-- The function `toDateFormat` of `src/index.js`. -/
def toDateFormat (date : DateInput) : String :=
  match date with
  | .string s => s
  | .date d =>
    join
      [ .number d.getFullYear,
        .string (padStart (numberToString ((d.getMonth : Int) + 1)) 2 "0"),
        .string (padStart (numberToString (d.getDate : Int)) 2 "0") ]
      "-"

/-! ## The transport and the asynchronous methods -/

/-- The base path of the remote API. -/
def BASE_URL : String := "/v1/holidays/"

/-- A settled promise: fulfilled with a value or rejected with a reason. -/
inductive Settled (ε α : Type) where
  | fulfilled (value : α)
  | rejected (reason : ε)

/-- The object given as `params`: its properties in the order the literal lists them. -/
abbrev Params := List (String × String)

/-- One call of `get`: the URL, and the `params` of the configuration object, `none`
when `get` is called with the URL alone. -/
structure GetCall where
  url : String
  params : Option Params

/-- What the transport resolves with: an object with a `data` property. -/
structure Response (δ : Type) where
  data : δ

/-- The object returned by `createInstance`.  `get` may depend on, and change, the state
`σ` of everything outside the client (network, server, clock). -/
structure Transport (σ ε δ : Type) where
  get : String → Option Params → σ → Settled ε (Response δ) × σ

/-- The outside state together with the log of the calls of `get` made so far. -/
structure World (σ : Type) where
  state : σ
  calls : List GetCall

/-- An asynchronous computation, run to the point where its promise settles. -/
def Async (σ ε α : Type) : Type := World σ → Settled ε α × World σ

/-- The code `return v` of an async function: the promise is fulfilled with `v`. -/
def Async.resolve {σ ε α : Type} (v : α) : Async σ ε α :=
  fun w => (.fulfilled v, w)

/-- The code `const v = await p; k v`: a rejection of `p` rejects the whole function with
the same reason, as no method has a `try`/`catch`. -/
def Async.await {σ ε α β : Type} (p : Async σ ε α) (k : α → Async σ ε β) : Async σ ε β :=
  fun w =>
    match p w with
    | (.fulfilled v, w') => k v w'
    | (.rejected e, w') => (.rejected e, w')

/-- The call `this.instance.get(url, config)`, logged. -/
def Transport.call {σ ε δ : Type} (t : Transport σ ε δ) (url : String)
    (params : Option Params) : Async σ ε (Response δ) :=
  fun w =>
    let r := t.get url params w.state
    (r.1, { state := r.2, calls := w.calls ++ [{ url := url, params := params }] })

/-- The class `HolidaysAPI`: its only field is the transport built by the constructor
(`this.instance`). -/
structure HolidaysAPI (σ ε δ : Type) where
  inst : Transport σ ε δ

/-- The method `isHoliday`. -/
def HolidaysAPI.isHoliday {σ ε δ : Type} (self : HolidaysAPI σ ε δ) (date : DateInput) :
    Async σ ε δ :=
  Async.await
    (self.inst.call (BASE_URL ++ "is-holiday") (some [("date", toDateFormat date)]))
    fun response => Async.resolve response.data

/-- The method `holidaysInBetween`. -/
def HolidaysAPI.holidaysInBetween {σ ε δ : Type} (self : HolidaysAPI σ ε δ)
    (startDate endDate : DateInput) : Async σ ε δ :=
  Async.await
    (self.inst.call BASE_URL
      (some [("endDate", toDateFormat endDate), ("startDate", toDateFormat startDate)]))
    fun response => Async.resolve response.data

/-- The method `holidaysUntil`. -/
def HolidaysAPI.holidaysUntil {σ ε δ : Type} (self : HolidaysAPI σ ε δ) (date : DateInput) :
    Async σ ε δ :=
  Async.await
    (self.inst.call BASE_URL (some [("endDate", toDateFormat date)]))
    fun response => Async.resolve response.data

/-- The method `holidaysWithinUpcomingYear`. -/
def HolidaysAPI.holidaysWithinUpcomingYear {σ ε δ : Type} (self : HolidaysAPI σ ε δ) :
    Async σ ε δ :=
  Async.await (self.inst.call BASE_URL none)
    fun response => Async.resolve response.data

/-- The method `nextHoliday`.  The `data` of the response is an array here; reading index
`0` of an empty array gives `undefined`, which is `none`. -/
def HolidaysAPI.nextHoliday {σ ε η : Type} (self : HolidaysAPI σ ε (List η)) :
    Async σ ε (Option η) :=
  Async.await self.holidaysWithinUpcomingYear
    fun holidays => Async.resolve holidays[0]?

/-- The world after one logged call of `get`. -/
def afterCall {σ ε δ : Type} (t : Transport σ ε δ) (url : String) (params : Option Params)
    (w : World σ) : World σ :=
  { state := (t.get url params w.state).2,
    calls := w.calls ++ [{ url := url, params := params }] }

/-- A transport that fulfils every call with the same `data` and counts the calls. -/
def Transport.fulfilling {ε δ : Type} (data : δ) : Transport Nat ε δ :=
  { get := fun _ _ n => (.fulfilled { data := data }, n + 1) }

/-- A transport that rejects every call with the same reason and counts the calls. -/
def Transport.rejecting {ε δ : Type} (e : ε) : Transport Nat ε δ :=
  { get := fun _ _ n => (.rejected e, n + 1) }

/-! ## The formats the specification names -/

/-- The format `{n:02}`: decimal, zero-padded on the left to a width of at least 2. -/
def zeroPad2 (n : Nat) : String :=
  if n < 10 then "0" ++ toString n else toString n

/-- The format `"{y}-{m:02}-{d:02}"`, the year in plain decimal. -/
def formatYMD (y : Int) (m d : Nat) : String :=
  toString y ++ "-" ++ zeroPad2 m ++ "-" ++ zeroPad2 d

/-- A string matches `^\d+-\d{2}-\d{2}$`: cut at every `-`, it has exactly three pieces,
a non-empty run of ASCII digits and two runs of exactly two ASCII digits. -/
def matchesDatePattern (s : String) : Bool :=
  match s.data.splitOn '-' with
  | [y, m, d] =>
    !y.isEmpty && y.all Char.isDigit
      && (m.length == 2 && m.all Char.isDigit)
      && (d.length == 2 && d.all Char.isDigit)
  | _ => false

/-- A non-empty run of ASCII digits read as a decimal number. -/
def parseDecimal (cs : List Char) : Option Nat :=
  if !cs.isEmpty && cs.all Char.isDigit then
    some (cs.foldl (fun acc c => 10 * acc + (c.toNat - '0'.toNat)) 0)
  else none

/-- The three `-`-separated components of a string, each read as a decimal number. -/
def numericComponents (s : String) : Option (Nat × Nat × Nat) :=
  match s.data.splitOn '-' with
  | [y, m, d] =>
    match parseDecimal y, parseDecimal m, parseDecimal d with
    | some a, some b, some c => some (a, b, c)
    | _, _, _ => none
  | _ => none

/-- A string has the shape `YYYY-MM-DD`: four ASCII digits, `-`, two digits, `-`, two
digits, ten characters in all. -/
def isYYYYMMDD (s : String) : Bool :=
  match s.data with
  | [y1, y2, y3, y4, sep1, m1, m2, sep2, d1, d2] =>
    [y1, y2, y3, y4, m1, m2, d1, d2].all Char.isDigit && sep1 == '-' && sep2 == '-'
  | _ => false

/-- The characters of a natural number padded with `0` to width 2. -/
def padded2 (n : Nat) : List Char :=
  if n < 10 then ['0', Nat.digitChar n] else decimalDigits n

/-- The inputs for which the output has a four-digit year: a string that already has the
shape `YYYY-MM-DD`, or a date whose year is in 1000..9999, with a month in 1..12 (0..11 as
`getMonth` counts) and a day in 1..31. -/
def fourDigitYearInput : DateInput → Bool
  | .string s => isYYYYMMDD s
  | .date d =>
    decide (1000 ≤ d.getFullYear) && decide (d.getFullYear ≤ 9999)
      && decide (d.getMonth + 1 ≤ 12) && decide (1 ≤ d.getDate) && decide (d.getDate ≤ 31)

/-! ## Decimal digits -/

theorem digitsAux_fuel (f1 : Nat) : ∀ (f2 n : Nat), n < f1 → n < f2 →
    digitsAux f1 n = digitsAux f2 n := by
  induction f1 with
  | zero => intro f2 n h1; omega
  | succ f1 ih =>
    intro f2 n h1 h2
    cases f2 with
    | zero => omega
    | succ f2 =>
      unfold digitsAux
      by_cases hn : n < 10
      · simp [hn]
      · simp only [hn, if_false]
        rw [ih f2 (n / 10) (by omega) (by omega)]

theorem decimalDigits_unfold (n : Nat) :
    decimalDigits n =
      if n < 10 then [Nat.digitChar n]
      else decimalDigits (n / 10) ++ [Nat.digitChar (n % 10)] := by
  unfold decimalDigits
  conv => lhs; unfold digitsAux
  by_cases hn : n < 10
  · simp [hn]
  · simp only [hn, if_false]
    rw [digitsAux_fuel n (n / 10 + 1) (n / 10) (by omega) (by omega)]

theorem decimalDigits_small (n : Nat) (h : n < 10) : decimalDigits n = [Nat.digitChar n] := by
  rw [decimalDigits_unfold, if_pos h]

theorem decimalDigits_two (n : Nat) (h1 : 10 ≤ n) (h2 : n < 100) :
    decimalDigits n = [Nat.digitChar (n / 10), Nat.digitChar (n % 10)] := by
  rw [decimalDigits_unfold, if_neg (by omega), decimalDigits_small (n / 10) (by omega)]
  rfl

theorem toDigitsCore_eq (fuel : Nat) : ∀ (n : Nat) (ds : List Char), n < fuel →
    Nat.toDigitsCore 10 fuel n ds = digitsAux fuel n ++ ds := by
  induction fuel with
  | zero => intro n ds h; omega
  | succ fuel ih =>
    intro n ds h
    unfold Nat.toDigitsCore digitsAux
    by_cases hn : n < 10
    · have h0 : n / 10 = 0 := by omega
      have hm : n % 10 = n := by omega
      simp [hn, h0, hm]
    · have h0 : ¬ n / 10 = 0 := by omega
      simp only [hn, h0, if_false]
      rw [ih (n / 10) _ (by omega)]
      simp

theorem decimalDigits_eq_toDigits (n : Nat) : decimalDigits n = Nat.toDigits 10 n := by
  unfold decimalDigits Nat.toDigits
  rw [toDigitsCore_eq (n + 1) n [] (by omega)]
  simp

theorem mk_decimalDigits (n : Nat) : String.mk (decimalDigits n) = toString n := by
  rw [decimalDigits_eq_toDigits]
  rfl

theorem numberToString_eq (x : Int) : numberToString x = toString x := by
  unfold numberToString
  cases x with
  | ofNat m =>
    have h : ¬ (Int.ofNat m < 0) := by simp
    rw [if_neg h]
    show String.mk (decimalDigits m) = toString m
    exact mk_decimalDigits m
  | negSucc m =>
    have h : Int.negSucc m < 0 := Int.negSucc_lt_zero m
    rw [if_pos h, Int.natAbs_negSucc, mk_decimalDigits]
    rfl

theorem numberToString_natCast (n : Nat) :
    numberToString (n : Int) = String.mk (decimalDigits n) := by
  unfold numberToString
  have h : ¬ ((n : Int) < 0) := by omega
  rw [if_neg h, Int.natAbs_ofNat]

/-! ## What `toDateFormat` builds -/

theorem decimalDigits_length_pos (n : Nat) : 1 ≤ (decimalDigits n).length := by
  rw [decimalDigits_unfold]
  by_cases hn : n < 10
  · simp [hn]
  · simp [hn]

theorem decimalDigits_length_two (n : Nat) (h : 10 ≤ n) : 2 ≤ (decimalDigits n).length := by
  rw [decimalDigits_unfold, if_neg (by omega)]
  have := decimalDigits_length_pos (n / 10)
  simp
  omega

theorem padStart_decimalDigits (n : Nat) :
    padStart (String.mk (decimalDigits n)) 2 "0" = String.mk (padded2 n) := by
  unfold padStart padded2
  by_cases hn : n < 10
  · rw [decimalDigits_small n hn]
    simp [hn]
    rfl
  · have h2 := decimalDigits_length_two n (by omega)
    simp [hn, String.length, h2]

theorem zeroPad2_eq (n : Nat) : zeroPad2 n = String.mk (padded2 n) := by
  unfold zeroPad2 padded2
  by_cases hn : n < 10
  · rw [if_pos hn, if_pos hn, ← mk_decimalDigits, decimalDigits_small n hn]
    rfl
  · rw [if_neg hn, if_neg hn, mk_decimalDigits]

theorem toDateFormat_date (d : JSDate) :
    toDateFormat (.date d) =
      numberToString d.getFullYear ++ "-" ++ String.mk (padded2 (d.getMonth + 1)) ++ "-"
        ++ String.mk (padded2 d.getDate) := by
  have hm : ((d.getMonth : Int) + 1) = ((d.getMonth + 1 : Nat) : Int) := by push_cast; rfl
  simp only [toDateFormat, join, List.foldl, Elem.toStr]
  rw [hm, numberToString_natCast, numberToString_natCast, padStart_decimalDigits,
    padStart_decimalDigits]

theorem toDateFormat_date_data (d : JSDate) :
    (toDateFormat (.date d)).data =
      (numberToString d.getFullYear).data ++ '-' :: (padded2 (d.getMonth + 1)
        ++ '-' :: padded2 d.getDate) := by
  rw [toDateFormat_date]
  simp [String.data_append]

/-! ## Reading the digits back -/

theorem digitChar_isDigit (k : Nat) (h : k < 10) : (Nat.digitChar k).isDigit = true := by
  interval_cases k <;> decide

theorem digitChar_value (k : Nat) (h : k < 10) : (Nat.digitChar k).toNat - '0'.toNat = k := by
  interval_cases k <;> decide

theorem decimalDigits_isDigit (n : Nat) : ∀ c ∈ decimalDigits n, c.isDigit = true := by
  induction n using Nat.strong_induction_on with
  | _ n ih =>
    intro c hc
    rw [decimalDigits_unfold] at hc
    by_cases hn : n < 10
    · simp only [hn, if_true, List.mem_singleton] at hc
      rw [hc]; exact digitChar_isDigit n hn
    · simp only [hn, if_false, List.mem_append, List.mem_singleton] at hc
      rcases hc with hc | hc
      · exact ih (n / 10) (by omega) c hc
      · rw [hc]; exact digitChar_isDigit (n % 10) (by omega)

theorem foldl_decimalDigits (n : Nat) :
    (decimalDigits n).foldl (fun acc c => 10 * acc + (c.toNat - '0'.toNat)) 0 = n := by
  induction n using Nat.strong_induction_on with
  | _ n ih =>
    rw [decimalDigits_unfold]
    by_cases hn : n < 10
    · simp only [hn, if_true, List.foldl]
      rw [digitChar_value n hn]; omega
    · simp only [hn, if_false, List.foldl_append, List.foldl]
      rw [ih (n / 10) (by omega), digitChar_value (n % 10) (by omega)]
      omega

theorem isDigit_not_dash (l : List Char) (h : ∀ c ∈ l, c.isDigit = true) : '-' ∉ l := by
  intro hmem
  have := h '-' hmem
  revert this
  decide

theorem all_isDigit_of_forall (l : List Char) (h : ∀ c ∈ l, c.isDigit = true) :
    l.all Char.isDigit = true := by
  simpa [List.all_eq_true] using h

theorem parseDecimal_decimalDigits (n : Nat) : parseDecimal (decimalDigits n) = some n := by
  unfold parseDecimal
  have hall := all_isDigit_of_forall _ (decimalDigits_isDigit n)
  have hlen := decimalDigits_length_pos n
  have hne : (decimalDigits n).isEmpty = false := by
    cases h : decimalDigits n with
    | nil => rw [h] at hlen; simp at hlen
    | cons a l => rfl
  simp only [hall, hne, foldl_decimalDigits]
  simp

theorem padded2_eq (n : Nat) (h : n < 100) :
    padded2 n = [Nat.digitChar (n / 10), Nat.digitChar (n % 10)] := by
  unfold padded2
  by_cases hn : n < 10
  · have h0 : n / 10 = 0 := by omega
    have hm : n % 10 = n := by omega
    rw [if_pos hn, h0, hm]; rfl
  · rw [if_neg hn, decimalDigits_two n (by omega) h]

theorem padded2_isDigit (n : Nat) (h : n < 100) : ∀ c ∈ padded2 n, c.isDigit = true := by
  intro c hc
  rw [padded2_eq n h] at hc
  simp only [List.mem_cons, List.mem_singleton, List.not_mem_nil, or_false] at hc
  rcases hc with hc | hc
  · rw [hc]; exact digitChar_isDigit _ (by omega)
  · rw [hc]; exact digitChar_isDigit _ (by omega)

theorem parseDecimal_padded2 (n : Nat) (h : n < 100) : parseDecimal (padded2 n) = some n := by
  have hall := all_isDigit_of_forall _ (padded2_isDigit n h)
  unfold parseDecimal
  rw [hall]
  rw [padded2_eq n h]
  simp only [List.isEmpty_cons, Bool.not_false, Bool.and_self, if_true, List.foldl]
  rw [digitChar_value _ (by omega), digitChar_value _ (by omega)]
  congr 1
  omega

theorem splitOn_three (a b c : List Char) (ha : '-' ∉ a) (hb : '-' ∉ b) (hc : '-' ∉ c) :
    (a ++ '-' :: (b ++ '-' :: c)).splitOn '-' = [a, b, c] := by
  have h : (['-'].intercalate [a, b, c]).splitOn '-' = [a, b, c] :=
    List.splitOn_intercalate [a, b, c] '-'
    (by
      intro l hl
      simp only [List.mem_cons, List.mem_singleton, List.not_mem_nil, or_false] at hl
      rcases hl with hl | hl | hl <;> rw [hl] <;> assumption)
    (by simp)
  simpa [List.intercalate, List.intersperse] using h

theorem decimalDigits_four (n : Nat) (h1 : 1000 ≤ n) (h2 : n ≤ 9999) :
    decimalDigits n =
      [Nat.digitChar (n / 1000), Nat.digitChar (n / 100 % 10), Nat.digitChar (n / 10 % 10),
        Nat.digitChar (n % 10)] := by
  have e1 : n / 10 / 10 = n / 100 := by omega
  have e2 : n / 100 / 10 = n / 1000 := by omega
  rw [decimalDigits_unfold, if_neg (by omega), decimalDigits_unfold (n / 10),
    if_neg (by omega), e1, decimalDigits_unfold (n / 100), if_neg (by omega), e2,
    decimalDigits_small (n / 1000) (by omega)]
  rfl

/-! ## The claims on `toDateFormat` -/

/-- C1: for every date with year `y`, 0-indexed month and day `d`, `toDateFormat` returns
exactly the decimal year, unpadded, then `-`, then the month plus one zero-padded to width
2, then `-`, then the day zero-padded to width 2; and `new Date(2024, 0, 1)` gives
`"2024-01-01"`. -/
theorem toDateFormat_date_eq_formatYMD :
    (∀ d : JSDate,
      toDateFormat (.date d) = formatYMD d.getFullYear (d.getMonth + 1) d.getDate) ∧
    toDateFormat (.date { getFullYear := 2024, getMonth := 0, getDate := 1 })
      = "2024-01-01" := by
  refine ⟨?_, by decide⟩
  intro d
  rw [toDateFormat_date, formatYMD, numberToString_eq, zeroPad2_eq, zeroPad2_eq]

/-- C2: for every string, whatever its content, `toDateFormat` returns it unchanged. -/
theorem toDateFormat_string (s : String) : toDateFormat (.string s) = s := rfl

/-- C3, as the claim states it, fails for a year before year 0: the date with year `-1`,
month 1 and day 1 gives `"-1-01-01"`, which does not match `^\d+-\d{2}-\d{2}$`. -/
theorem toDateFormat_negative_year_no_match :
    toDateFormat (.date { getFullYear := -1, getMonth := 0, getDate := 1 }) = "-1-01-01" ∧
    matchesDatePattern
      (toDateFormat (.date { getFullYear := -1, getMonth := 0, getDate := 1 })) = false ∧
    numericComponents
      (toDateFormat (.date { getFullYear := -1, getMonth := 0, getDate := 1 })) = none := by
  decide

/-- C3, amended: for every date with year `y ≥ 0`, month `1 ≤ m ≤ 12` and day
`1 ≤ d ≤ 31`, the output of `toDateFormat` matches `^\d+-\d{2}-\d{2}$` and its three
`-`-separated components, read as decimal numbers, are exactly `(y, m, d)`. -/
theorem toDateFormat_matches_and_parses (y : Int) (m d : Nat) (hy : 0 ≤ y)
    (hm1 : 1 ≤ m) (hm2 : m ≤ 12) (hd1 : 1 ≤ d) (hd2 : d ≤ 31) :
    matchesDatePattern
      (toDateFormat (.date { getFullYear := y, getMonth := m - 1, getDate := d })) = true ∧
    numericComponents
      (toDateFormat (.date { getFullYear := y, getMonth := m - 1, getDate := d }))
        = some (y.toNat, m, d) ∧
    (y.toNat : Int) = y := by
  have hyn : (y.toNat : Int) = y := Int.toNat_of_nonneg hy
  have hmm : m - 1 + 1 = m := by omega
  have hdata :
      (toDateFormat (.date { getFullYear := y, getMonth := m - 1, getDate := d })).data
        = decimalDigits y.toNat ++ '-' :: (padded2 m ++ '-' :: padded2 d) := by
    rw [toDateFormat_date_data]
    simp only [hmm]
    rw [← hyn, numberToString_natCast, Int.toNat_ofNat]
  have hsplit := splitOn_three (decimalDigits y.toNat) (padded2 m) (padded2 d)
    (isDigit_not_dash _ (decimalDigits_isDigit _))
    (isDigit_not_dash _ (padded2_isDigit m (by omega)))
    (isDigit_not_dash _ (padded2_isDigit d (by omega)))
  refine ⟨?_, ?_, hyn⟩
  · unfold matchesDatePattern
    rw [hdata, hsplit]
    have h1 := all_isDigit_of_forall _ (decimalDigits_isDigit y.toNat)
    have h2 := all_isDigit_of_forall _ (padded2_isDigit m (by omega))
    have h3 := all_isDigit_of_forall _ (padded2_isDigit d (by omega))
    have hne : (decimalDigits y.toNat).isEmpty = false := by
      have hlen := decimalDigits_length_pos y.toNat
      cases h : decimalDigits y.toNat with
      | nil => rw [h] at hlen; simp at hlen
      | cons a l => rfl
    have l2 : (padded2 m).length = 2 := by rw [padded2_eq m (by omega)]; rfl
    have l3 : (padded2 d).length = 2 := by rw [padded2_eq d (by omega)]; rfl
    simp only [h1, h2, h3, hne, l2, l3]
    decide
  · unfold numericComponents
    rw [hdata, hsplit]
    simp only [parseDecimal_decimalDigits, parseDecimal_padded2 m (by omega),
      parseDecimal_padded2 d (by omega)]

theorem toDateFormat_matches_and_parses_witness :
    (0 : Int) ≤ 2024 ∧ 1 ≤ 12 ∧ 12 ≤ 12 ∧ 1 ≤ 31 ∧ 31 ≤ 31 ∧
    matchesDatePattern
      (toDateFormat (.date { getFullYear := 2024, getMonth := 12 - 1, getDate := 31 })) = true ∧
    numericComponents
      (toDateFormat (.date { getFullYear := 2024, getMonth := 12 - 1, getDate := 31 }))
        = some ((2024 : Int).toNat, 12, 31) ∧
    (((2024 : Int).toNat : Nat) : Int) = 2024 :=
  ⟨by decide, by decide, by decide, by decide, by decide,
    toDateFormat_matches_and_parses 2024 12 31 (by decide) (by decide) (by decide) (by decide)
      (by decide)⟩

/-- C4, as the claim states it, fails for a year with fewer than four digits: the date with
year 999, month 1 and day 1 gives `"999-01-01"`, nine characters with a three-digit year. -/
theorem toDateFormat_short_year_not_YYYYMMDD :
    toDateFormat (.date { getFullYear := 999, getMonth := 0, getDate := 1 }) = "999-01-01" ∧
    (toDateFormat (.date { getFullYear := 999, getMonth := 0, getDate := 1 })).length = 9 ∧
    isYYYYMMDD
      (toDateFormat (.date { getFullYear := 999, getMonth := 0, getDate := 1 })) = false := by
  decide

/-- C4, amended: for a string already of the shape `YYYY-MM-DD`, and for a date whose year
is in 1000..9999 with month in 1..12 and day in 1..31, the result of `toDateFormat` has the
shape `YYYY-MM-DD` (four digits, `-`, two digits, `-`, two digits) and length 10. -/
theorem toDateFormat_isYYYYMMDD (date : DateInput) (h : fourDigitYearInput date = true) :
    isYYYYMMDD (toDateFormat date) = true ∧ (toDateFormat date).length = 10 := by
  cases date with
  | string s =>
    have hs : isYYYYMMDD s = true := h
    refine ⟨hs, ?_⟩
    show s.data.length = 10
    unfold isYYYYMMDD at hs
    split at hs
    · next heq => rw [heq]; rfl
    · exact absurd hs (by simp)
  | date d =>
    simp only [fourDigitYearInput, Bool.and_eq_true, decide_eq_true_eq] at h
    obtain ⟨⟨⟨⟨hy1, hy2⟩, hm⟩, hd1⟩, hd2⟩ := h
    have hyn : (d.getFullYear.toNat : Int) = d.getFullYear := Int.toNat_of_nonneg (by omega)
    have hdata : (toDateFormat (.date d)).data
        = decimalDigits d.getFullYear.toNat ++ '-' :: (padded2 (d.getMonth + 1)
          ++ '-' :: padded2 d.getDate) := by
      rw [toDateFormat_date_data, ← hyn, numberToString_natCast, Int.toNat_ofNat]
    rw [decimalDigits_four _ (by omega) (by omega), padded2_eq _ (by omega : d.getMonth + 1 < 100),
      padded2_eq _ (by omega : d.getDate < 100)] at hdata
    have hdig : ∀ k, k < 10 → (Nat.digitChar k).isDigit = true := digitChar_isDigit
    refine ⟨?_, ?_⟩
    · unfold isYYYYMMDD
      rw [hdata]
      simp only [List.cons_append, List.nil_append, List.all_cons, List.all_nil]
      rw [hdig _ (by omega), hdig _ (by omega), hdig _ (by omega), hdig _ (by omega),
        hdig _ (by omega), hdig _ (by omega), hdig _ (by omega), hdig _ (by omega)]
      decide
    · show (toDateFormat (.date d)).data.length = 10
      rw [hdata]; rfl

theorem toDateFormat_isYYYYMMDD_witness :
    fourDigitYearInput (.date { getFullYear := 2024, getMonth := 0, getDate := 1 }) = true ∧
    isYYYYMMDD
      (toDateFormat (.date { getFullYear := 2024, getMonth := 0, getDate := 1 })) = true ∧
    (toDateFormat (.date { getFullYear := 2024, getMonth := 0, getDate := 1 })).length = 10 :=
  ⟨by decide,
    toDateFormat_isYYYYMMDD (.date { getFullYear := 2024, getMonth := 0, getDate := 1 })
      (by decide)⟩

/-! ## Running the methods -/

/-- The body shared by the four methods that call `get`: one call, then `response.data`. -/
theorem await_call_data {σ ε δ : Type} (t : Transport σ ε δ) (url : String)
    (params : Option Params) (w : World σ) :
    Async.await (t.call url params) (fun response => Async.resolve response.data) w =
      (match (t.get url params w.state).1 with
        | .fulfilled response => .fulfilled response.data
        | .rejected e => .rejected e,
       afterCall t url params w) := by
  unfold Async.await Transport.call Async.resolve afterCall
  rcases h : t.get url params w.state with ⟨r, s⟩
  cases r <;> rfl

theorem base_url_is_holiday : BASE_URL ++ "is-holiday" = "/v1/holidays/is-holiday" := by
  decide

theorem base_url_eq : BASE_URL = "/v1/holidays/" := rfl

theorem nextHoliday_run {σ ε η : Type} (self : HolidaysAPI σ ε (List η)) (w : World σ) :
    self.nextHoliday w =
      (match (self.holidaysWithinUpcomingYear w).1 with
        | .fulfilled holidays => .fulfilled holidays[0]?
        | .rejected e => .rejected e,
       (self.holidaysWithinUpcomingYear w).2) := by
  unfold HolidaysAPI.nextHoliday Async.await Async.resolve
  rcases h : self.holidaysWithinUpcomingYear w with ⟨r, w'⟩
  cases r <;> rfl

/-! ## The claims on the methods -/

/-- C5: for every date input, transport and starting world, `isHoliday(date)` adds exactly
one call of `get` to the log, to the path `/v1/holidays/is-holiday`, with `params` holding
the single entry `date` equal to `toDateFormat(date)`; and when the transport fulfils that
call with a response, `isHoliday` is fulfilled with the `data` of that response. -/
theorem isHoliday_request_and_result {σ ε δ : Type} (self : HolidaysAPI σ ε δ)
    (date : DateInput) (w : World σ) :
    (self.isHoliday date w).2.calls =
      w.calls ++ [{ url := "/v1/holidays/is-holiday",
                    params := some [("date", toDateFormat date)] }] ∧
    ∀ (response : Response δ) (s : σ),
      self.inst.get "/v1/holidays/is-holiday" (some [("date", toDateFormat date)]) w.state
          = (.fulfilled response, s) →
        (self.isHoliday date w).1 = .fulfilled response.data := by
  unfold HolidaysAPI.isHoliday
  rw [await_call_data, base_url_is_holiday]
  refine ⟨rfl, ?_⟩
  intro response s h
  simp only [h]

theorem isHoliday_request_and_result_witness :
    (HolidaysAPI.isHoliday { inst := (Transport.fulfilling true : Transport Nat String Bool) }
        (.date { getFullYear := 2024, getMonth := 0, getDate := 1 })
        { state := 0, calls := [] }).1 = .fulfilled true :=
  (isHoliday_request_and_result
      { inst := (Transport.fulfilling true : Transport Nat String Bool) }
      (.date { getFullYear := 2024, getMonth := 0, getDate := 1 })
      { state := 0, calls := [] }).2 { data := true } 1 rfl

/-- C6: for every pair of date inputs, `holidaysInBetween(d1, d2)` adds exactly one call of
`get` to the log, to `/v1/holidays/`, whose `params` are exactly the two entries
`endDate = toDateFormat(d2)` and `startDate = toDateFormat(d1)`; and when the transport
fulfils that call with a response, the method is fulfilled with the `data` of that
response, unmodified. -/
theorem holidaysInBetween_request_and_result {σ ε δ : Type} (self : HolidaysAPI σ ε δ)
    (d1 d2 : DateInput) (w : World σ) :
    (self.holidaysInBetween d1 d2 w).2.calls =
      w.calls ++ [{ url := "/v1/holidays/",
                    params := some [("endDate", toDateFormat d2),
                                    ("startDate", toDateFormat d1)] }] ∧
    List.lookup "startDate" [("endDate", toDateFormat d2), ("startDate", toDateFormat d1)]
      = some (toDateFormat d1) ∧
    List.lookup "endDate" [("endDate", toDateFormat d2), ("startDate", toDateFormat d1)]
      = some (toDateFormat d2) ∧
    ∀ (response : Response δ) (s : σ),
      self.inst.get "/v1/holidays/"
          (some [("endDate", toDateFormat d2), ("startDate", toDateFormat d1)]) w.state
          = (.fulfilled response, s) →
        (self.holidaysInBetween d1 d2 w).1 = .fulfilled response.data := by
  unfold HolidaysAPI.holidaysInBetween
  rw [await_call_data, base_url_eq]
  refine ⟨rfl, by simp [List.lookup], by simp [List.lookup], ?_⟩
  intro response s h
  simp only [h]

theorem holidaysInBetween_request_and_result_witness :
    (HolidaysAPI.holidaysInBetween
        { inst := (Transport.fulfilling ["2024-12-25"] : Transport Nat String (List String)) }
        (.string "2024-12-01") (.date { getFullYear := 2024, getMonth := 11, getDate := 31 })
        { state := 0, calls := [] }).1 = .fulfilled ["2024-12-25"] :=
  (holidaysInBetween_request_and_result
      { inst := (Transport.fulfilling ["2024-12-25"] : Transport Nat String (List String)) }
      (.string "2024-12-01") (.date { getFullYear := 2024, getMonth := 11, getDate := 31 })
      { state := 0, calls := [] }).2.2.2 { data := ["2024-12-25"] } 1 rfl

/-- C7: for every date input, `holidaysUntil(date)` adds exactly one call of `get` to the
log, to `/v1/holidays/`, whose `params` hold only `endDate = toDateFormat(date)` and no
`startDate`; when the transport fulfils that call, the method is fulfilled with the `data`
of the response; and `holidaysUntil("2024-12-31")` sends only `endDate=2024-12-31`. -/
theorem holidaysUntil_request_and_result {σ ε δ : Type} (self : HolidaysAPI σ ε δ)
    (date : DateInput) (w : World σ) :
    (self.holidaysUntil date w).2.calls =
      w.calls ++ [{ url := "/v1/holidays/",
                    params := some [("endDate", toDateFormat date)] }] ∧
    List.lookup "startDate" [("endDate", toDateFormat date)] = none ∧
    (∀ (response : Response δ) (s : σ),
      self.inst.get "/v1/holidays/" (some [("endDate", toDateFormat date)]) w.state
          = (.fulfilled response, s) →
        (self.holidaysUntil date w).1 = .fulfilled response.data) ∧
    (self.holidaysUntil (.string "2024-12-31") w).2.calls =
      w.calls ++ [{ url := "/v1/holidays/", params := some [("endDate", "2024-12-31")] }] := by
  unfold HolidaysAPI.holidaysUntil
  rw [await_call_data, await_call_data, base_url_eq]
  refine ⟨rfl, by simp [List.lookup], ?_, rfl⟩
  intro response s h
  simp only [h]

theorem holidaysUntil_request_and_result_witness :
    (HolidaysAPI.holidaysUntil
        { inst := (Transport.fulfilling ["2024-12-25"] : Transport Nat String (List String)) }
        (.string "2024-12-31") { state := 0, calls := [] }).1 = .fulfilled ["2024-12-25"] :=
  (holidaysUntil_request_and_result
      { inst := (Transport.fulfilling ["2024-12-25"] : Transport Nat String (List String)) }
      (.string "2024-12-31") { state := 0, calls := [] }).2.2.1 { data := ["2024-12-25"] } 1 rfl

/-- C8: whatever the transport answers to the call without parameters, from the same
starting world: when `holidaysWithinUpcomingYear()` is fulfilled with a non-empty sequence,
`nextHoliday()` is fulfilled with its first element; when it is fulfilled with the empty
sequence, `nextHoliday()` is fulfilled with the absent value and is not rejected. -/
theorem nextHoliday_first_or_absent {σ ε η : Type} (self : HolidaysAPI σ ε (List η))
    (w : World σ) :
    (∀ (x : η) (xs : List η),
      (self.holidaysWithinUpcomingYear w).1 = .fulfilled (x :: xs) →
        (self.nextHoliday w).1 = .fulfilled (some x)) ∧
    ((self.holidaysWithinUpcomingYear w).1 = .fulfilled [] →
      (self.nextHoliday w).1 = .fulfilled none) := by
  rw [nextHoliday_run]
  constructor
  · intro x xs h
    simp [h]
  · intro h
    simp [h]

theorem nextHoliday_first_or_absent_witness :
    (HolidaysAPI.nextHoliday
        { inst := (Transport.fulfilling ["2024-12-25", "2024-12-26"] :
            Transport Nat String (List String)) }
        { state := 0, calls := [] }).1 = .fulfilled (some "2024-12-25") ∧
    (HolidaysAPI.nextHoliday
        { inst := (Transport.fulfilling [] : Transport Nat String (List String)) }
        { state := 0, calls := [] }).1 = .fulfilled none :=
  ⟨(nextHoliday_first_or_absent
      { inst := (Transport.fulfilling ["2024-12-25", "2024-12-26"] :
          Transport Nat String (List String)) }
      { state := 0, calls := [] }).1 "2024-12-25" ["2024-12-26"] rfl,
   (nextHoliday_first_or_absent
      { inst := (Transport.fulfilling [] : Transport Nat String (List String)) }
      { state := 0, calls := [] }).2 rfl⟩

/-- C9: for each of the five methods and every error `e`: when the call of `get` that the
method makes is rejected by the transport with `e`, the method is rejected with that same
`e`; in particular, when `holidaysWithinUpcomingYear()` is rejected with `e`, so is
`nextHoliday()`. -/
theorem transport_rejection_propagates {σ ε δ η : Type} (self : HolidaysAPI σ ε δ)
    (lst : HolidaysAPI σ ε (List η)) (w : World σ) (e : ε) :
    (∀ (date : DateInput) (s : σ),
      self.inst.get "/v1/holidays/is-holiday" (some [("date", toDateFormat date)]) w.state
          = (.rejected e, s) →
        (self.isHoliday date w).1 = .rejected e) ∧
    (∀ (d1 d2 : DateInput) (s : σ),
      self.inst.get "/v1/holidays/"
          (some [("endDate", toDateFormat d2), ("startDate", toDateFormat d1)]) w.state
          = (.rejected e, s) →
        (self.holidaysInBetween d1 d2 w).1 = .rejected e) ∧
    (∀ (date : DateInput) (s : σ),
      self.inst.get "/v1/holidays/" (some [("endDate", toDateFormat date)]) w.state
          = (.rejected e, s) →
        (self.holidaysUntil date w).1 = .rejected e) ∧
    (∀ (s : σ),
      self.inst.get "/v1/holidays/" none w.state = (.rejected e, s) →
        (self.holidaysWithinUpcomingYear w).1 = .rejected e) ∧
    (∀ (s : σ),
      lst.inst.get "/v1/holidays/" none w.state = (.rejected e, s) →
        (lst.nextHoliday w).1 = .rejected e) ∧
    ((lst.holidaysWithinUpcomingYear w).1 = .rejected e →
      (lst.nextHoliday w).1 = .rejected e) := by
  refine ⟨?_, ?_, ?_, ?_, ?_, ?_⟩
  · intro date s h
    unfold HolidaysAPI.isHoliday
    rw [await_call_data, base_url_is_holiday]
    simp only [h]
  · intro d1 d2 s h
    unfold HolidaysAPI.holidaysInBetween
    rw [await_call_data, base_url_eq]
    simp only [h]
  · intro date s h
    unfold HolidaysAPI.holidaysUntil
    rw [await_call_data, base_url_eq]
    simp only [h]
  · intro s h
    unfold HolidaysAPI.holidaysWithinUpcomingYear
    rw [await_call_data, base_url_eq]
    simp only [h]
  · intro s h
    rw [nextHoliday_run]
    unfold HolidaysAPI.holidaysWithinUpcomingYear
    rw [await_call_data, base_url_eq]
    simp only [h]
  · intro h
    rw [nextHoliday_run]
    simp only [h]

theorem transport_rejection_propagates_witness :
    (HolidaysAPI.isHoliday { inst := (Transport.rejecting "timeout" : Transport Nat String Bool) }
        (.string "2024-12-31") { state := 0, calls := [] }).1 = .rejected "timeout" ∧
    (HolidaysAPI.nextHoliday
        { inst := (Transport.rejecting "timeout" : Transport Nat String (List String)) }
        { state := 0, calls := [] }).1 = .rejected "timeout" :=
  ⟨(transport_rejection_propagates
      { inst := (Transport.rejecting "timeout" : Transport Nat String Bool) }
      { inst := (Transport.rejecting "timeout" : Transport Nat String (List String)) }
      { state := 0, calls := [] } "timeout").1 (.string "2024-12-31") 1 rfl,
   (transport_rejection_propagates
      { inst := (Transport.rejecting "timeout" : Transport Nat String Bool) }
      { inst := (Transport.rejecting "timeout" : Transport Nat String (List String)) }
      { state := 0, calls := [] } "timeout").2.2.2.2.1 1 rfl⟩

/-- C10: `holidaysWithinUpcomingYear()` adds exactly one call of `get` to the log, to
`/v1/holidays/`, with no `params` at all, and when the transport fulfils that call it is
fulfilled with the `data` of the response, unmodified; `nextHoliday()` leaves the world
exactly as `holidaysWithinUpcomingYear()` does: that same single call and no other. -/
theorem holidaysWithinUpcomingYear_request_and_result {σ ε δ η : Type}
    (self : HolidaysAPI σ ε δ) (lst : HolidaysAPI σ ε (List η)) (w : World σ) :
    (self.holidaysWithinUpcomingYear w).2.calls =
      w.calls ++ [{ url := "/v1/holidays/", params := none }] ∧
    (∀ (response : Response δ) (s : σ),
      self.inst.get "/v1/holidays/" none w.state = (.fulfilled response, s) →
        (self.holidaysWithinUpcomingYear w).1 = .fulfilled response.data) ∧
    (lst.nextHoliday w).2 = (lst.holidaysWithinUpcomingYear w).2 ∧
    (lst.nextHoliday w).2.calls =
      w.calls ++ [{ url := "/v1/holidays/", params := none }] := by
  rw [nextHoliday_run]
  unfold HolidaysAPI.holidaysWithinUpcomingYear
  rw [await_call_data, await_call_data, base_url_eq]
  refine ⟨rfl, ?_, rfl, rfl⟩
  intro response s h
  simp only [h]

theorem holidaysWithinUpcomingYear_request_and_result_witness :
    (HolidaysAPI.holidaysWithinUpcomingYear
        { inst := (Transport.fulfilling ["2024-12-25"] : Transport Nat String (List String)) }
        { state := 0, calls := [] }).1 = .fulfilled ["2024-12-25"] :=
  (holidaysWithinUpcomingYear_request_and_result
      { inst := (Transport.fulfilling ["2024-12-25"] : Transport Nat String (List String)) }
      { inst := (Transport.fulfilling ["2024-12-25"] : Transport Nat String (List String)) }
      { state := 0, calls := [] }).2.1 { data := ["2024-12-25"] } 1 rfl

end HolidaysSDK
